import Mathlib

/-!
Shallow embedding of the license binding and validation protocol of the
mt5_dashboard repository: the `License` model methods
(`reset_daily_usage_if_needed`, `bind_account`, `validate_system_hash` in
`licenses/models.py`) and the bot-facing validation endpoint
(`BotValidationAPIView.post` in `licenses/views.py`).

Timestamps are modelled as integers (`now : Int`); calendar days as integers
(`today : Int`, mirroring `timezone.now().date()`), so `last_reset_date < today`
is integer comparison.  Python string truthiness (`if not self.system_hash`,
which is falsy for both `None` and `""`) is modelled by `truthy` on
`Option String`.  Database persistence is modelled by returning the updated
record together with the number of `save()` calls issued during the operation
(a `save(update_fields=...)` counts as one write, the final full-record
`save()` as another).
-/

namespace MT5

/-- Action tags used in `account_hash_history` entries
(`'initial_set'`, `'replaced'`, `'updated'` in `License.bind_account`). -/
inductive HistAction where
  | initial_set
  | replaced
  | updated
deriving DecidableEq

/-- One entry of the `account_hash_history` JSON list:
`{'account_hash': ..., 'timestamp': ..., 'action': ...}`. -/
structure HistEntry where
  account_hash : String
  timestamp : Int
  action : HistAction
deriving DecidableEq

/-- The `TradingConfiguration` model (configurations/models.py), abstracted to
its identity: the trading-parameter bundle (symbols, sessions, Fibonacci
levels, timeouts) is opaque to the validation protocol — the endpoint only
ever tests `trading_configuration` for presence and serializes it verbatim.
The exact field list of its serializer is modelled by `configSerializerKeys`. -/
structure TradingConfiguration where
  id : Nat
  name : String
  is_active : Bool
deriving DecidableEq

/-- The `License` model (licenses/models.py), restricted to the fields read or
written by the validation protocol. -/
structure License where
  license_key : String
  system_hash : Option String
  account_hash : Option String
  account_hash_history : List HistEntry
  broker_server : Option String
  account_trade_mode : Nat
  expires_at : Int
  is_active : Bool
  first_used_at : Option Int
  last_used_at : Option Int
  usage_count : Nat
  daily_usage_count : Nat
  last_reset_date : Int
  trading_configuration : Option TradingConfiguration
deriving DecidableEq

/-- Python truthiness of an optional string: `None` and `""` are falsy. -/
def truthy : Option String → Bool
  | none => false
  | some s => s != ""

/-- Property `License.is_expired`: `timezone.now() > self.expires_at`. -/
def is_expired (l : License) (now : Int) : Bool :=
  now > l.expires_at

/-- Property `License.is_valid`: `self.is_active and not self.is_expired and
self.trading_configuration is not None`. -/
def is_valid (l : License) (now : Int) : Bool :=
  l.is_active && !(is_expired l now) && l.trading_configuration.isSome

/-- Method `License.validate_system_hash`: first component is the authorization
verdict, second the message returned alongside it. -/
def validate_system_hash (l : License) (system_hash : String) : Bool × String :=
  if truthy l.system_hash = false then
    (true, "First time use - will bind account")
  else if l.system_hash == some system_hash then
    (true, "Account authorized")
  else
    (false, "Account not authorized - license bound to different trading account")

/-- Method `License.reset_daily_usage_if_needed`: if `last_reset_date < today`, zero
the daily counter, stamp today, and issue one `save(update_fields=...)` write
(second component counts the writes issued). -/
def reset_daily_usage_if_needed (l : License) (today : Int) : License × Nat :=
  if l.last_reset_date < today then
    ({ l with daily_usage_count := 0, last_reset_date := today }, 1)
  else
    (l, 0)

/-- Method `License.bind_account(system_hash, account_trade_mode, broker_server=None,
account_hash=None)`: the bind/update mutation.  Returns the updated record and
the total number of `save` writes issued (the daily-reset write, if any, plus
the final full-record `save()`). -/
def bind_account (l : License) (system_hash : String) (account_trade_mode : Nat)
    (broker_server : Option String) (account_hash : Option String)
    (now today : Int) : License × Nat :=
  let r := reset_daily_usage_if_needed l today
  let l1 := r.1
  let l2 :=
    if l1.first_used_at.isNone then
      let lA := { l1 with
        first_used_at := some now,
        system_hash := some system_hash,
        account_trade_mode := account_trade_mode }
      let lB := if truthy broker_server then { lA with broker_server := broker_server } else lA
      if truthy account_hash then
        { lB with
          account_hash := account_hash,
          account_hash_history := lB.account_hash_history ++
            [⟨account_hash.getD "", now, HistAction.initial_set⟩] }
      else lB
    else
      if truthy account_hash && account_hash != l1.account_hash then
        let hist1 :=
          if truthy l1.account_hash then
            l1.account_hash_history ++ [⟨l1.account_hash.getD "", now, HistAction.replaced⟩]
          else
            l1.account_hash_history
        { l1 with
          account_hash := account_hash,
          account_hash_history := hist1 ++ [⟨account_hash.getD "", now, HistAction.updated⟩] }
      else l1
  ({ l2 with
     last_used_at := some now,
     usage_count := l2.usage_count + 1,
     daily_usage_count := l2.daily_usage_count + 1 },
   r.2 + 1)

/-- The parsed body of a validation request.  `broker_server` and
`account_hash` default to `""` when absent (`validated_data.get(..., '')` in
the view); `timestamp` is required but informational. -/
structure Request where
  license_key : String
  system_hash : String
  account_trade_mode : Nat
  broker_server : String
  account_hash : String
  timestamp : Int
deriving DecidableEq

/-- Predicate modelling `BotValidationRequestSerializer.is_valid()`: `license_key` and
`system_hash` are required non-blank with max lengths 64 and 128,
`account_trade_mode` must be one of the choices 0/1/2, the optional
`broker_server` and `account_hash` respect their max lengths. -/
def requestValid (r : Request) : Bool :=
  r.license_key != "" && r.license_key.length ≤ 64 &&
  r.system_hash != "" && r.system_hash.length ≤ 128 &&
  (r.account_trade_mode == 0 || r.account_trade_mode == 1 || r.account_trade_mode == 2) &&
  r.broker_server.length ≤ 100 && r.account_hash.length ≤ 128

/-- The success body built by the view: `{'success': True, 'message': ...,
'expires_at': ...}` updated with the serialized configuration fields. -/
structure SuccessResponse where
  expires_at : Int
  config : TradingConfiguration
deriving DecidableEq

/-- Outcome of one endpoint call: an error body `{'success': False, 'code':
..., 'message': ...}` with its HTTP status, or the success body (HTTP 200).
The human-readable message strings are claim-irrelevant and omitted from the
failure constructor; the error `code` and HTTP status are kept verbatim. -/
inductive VResult where
  | failure (code : String) (httpStatus : Nat)
  | success (resp : SuccessResponse)
deriving DecidableEq

/-- Whether the response reports success. -/
def VResult.isSuccess : VResult → Bool
  | .failure _ _ => false
  | .success _ => true

/-- Error code of a failure response (`""` on success). -/
def VResult.code : VResult → String
  | .failure c _ => c
  | .success _ => ""

/-- HTTP status of the response (success responses are HTTP 200). -/
def VResult.httpStatus : VResult → Nat
  | .failure _ s => s
  | .success _ => 200

/-- Endpoint handler `BotValidationAPIView.post`, specialised to a store holding the single
license `l` (lookup succeeds iff the request's key equals `l.license_key`).
Returns the response, the stored record after the call, and the number of
database writes issued. -/
def bot_validation_post (l : License) (r : Request) (now today : Int) :
    VResult × License × Nat :=
  if requestValid r = false then
    (.failure "INVALID_REQUEST" 400, l, 0)
  else if (r.license_key == l.license_key) = false then
    (.failure "INVALID_LICENSE" 401, l, 0)
  else if is_valid l now = false then
    if is_expired l now then
      (.failure "LICENSE_EXPIRED" 401, l, 0)
    else if l.is_active = false then
      (.failure "LICENSE_INACTIVE" 401, l, 0)
    else
      (.failure "NO_CONFIGURATION" 401, l, 0)
  else if (validate_system_hash l r.system_hash).1 = false then
    (.failure "SYSTEM_MISMATCH" 403, l, 0)
  else if truthy l.system_hash && (l.account_trade_mode != r.account_trade_mode) then
    (.failure "TRADE_MODE_MISMATCH" 403, l, 0)
  else
    let b := bind_account l r.system_hash r.account_trade_mode
      (some r.broker_server)
      (if r.account_hash != "" then some r.account_hash else none)
      now today
    match b.1.trading_configuration with
    | none => (.failure "NO_CONFIGURATION" 500, b.1, b.2)
    | some cfg => (.success ⟨b.1.expires_at, cfg⟩, b.1, b.2)

/-- Run a sequence of validation calls, each with its request, `now` and
`today`, threading the stored record. -/
def runCalls (l : License) (cs : List (Request × Int × Int)) : License :=
  cs.foldl (fun st c => (bot_validation_post st c.1 c.2.1 c.2.2).2.1) l

/-- Two validation calls where BOTH requests load the license record before
EITHER saves (the view takes no lock and opens no transaction): each call
computes against the same snapshot `l`; request 1's full-record save commits
first and request 2's commits last, so the final stored record is request 2's
result (last writer wins). -/
def interleavedBothRead (l : License) (r1 r2 : Request) (now today : Int) :
    VResult × VResult × License :=
  let a := bot_validation_post l r1 now today
  let b := bot_validation_post l r2 now today
  (a.1, b.1, b.2.1)

/-- The `Meta.fields` list of `TradingConfigurationSerializer`
(configurations/serializers.py): the keys of the serialized configuration
payload, in declaration order. -/
def configSerializerKeys : List String :=
  ["id", "name", "description", "allowed_symbol", "strict_symbol_check",
   "session_start", "session_end", "fib_level_1_1", "fib_level_1_05",
   "fib_level_1_0", "fib_level_primary_buy_sl", "fib_level_primary_sell_sl",
   "fib_level_hedge_buy", "fib_level_hedge_sell", "fib_level_hedge_buy_sl",
   "fib_level_hedge_sell_sl", "fib_level_0_0", "fib_level_neg_05",
   "fib_level_neg_1", "fib_level_hedge_buy_tp", "fib_level_hedge_sell_tp",
   "primary_pending_timeout", "primary_position_timeout",
   "hedging_pending_timeout", "hedging_position_timeout", "is_active",
   "created_at", "updated_at",
   "inp_AllowedSymbol", "inp_StrictSymbolCheck", "inp_SessionStart",
   "inp_SessionEnd", "inp_FibLevel_1_1", "inp_FibLevel_1_05",
   "inp_FibLevel_1_0", "inp_FibLevel_PrimaryBuySL", "inp_FibLevel_PrimarySellSL",
   "inp_FibLevel_HedgeBuy", "inp_FibLevel_HedgeSell", "inp_FibLevel_HedgeBuySL",
   "inp_FibLevel_HedgeSellSL", "inp_FibLevel_0_0", "inp_FibLevel_Neg_05",
   "inp_FibLevel_Neg_1", "inp_FibLevel_HedgeBuyTP", "inp_FibLevel_HedgeSellTP",
   "inp_PrimaryPendingTimeout", "inp_PrimaryPositionTimeout",
   "inp_HedgingPendingTimeout", "inp_HedgingPositionTimeout"]

/-- Top-level keys of the JSON body the view returns.  On failure:
`{'success', 'code', 'message'}`.  On success the view builds
`{'success', 'message', 'expires_at'}` and then merges in every serialized
configuration field at root level (`response_data.update(config_data)`; no
configuration key collides with the first three). -/
def responseKeys : VResult → List String
  | .failure _ _ => ["success", "code", "message"]
  | .success _ => ["success", "message", "expires_at"] ++ configSerializerKeys

end MT5

namespace MT5

/-- A sample trading configuration. -/
def cfg1 : TradingConfiguration := ⟨1, "US30 Standard", true⟩

/-- A freshly issued license: unbound, unused, active, expiring at time 100,
with a configuration assigned. -/
def lFresh : License :=
  { license_key := "KEY1", system_hash := none, account_hash := none,
    account_hash_history := [], broker_server := none, account_trade_mode := 0,
    expires_at := 100, is_active := true, first_used_at := none,
    last_used_at := none, usage_count := 0, daily_usage_count := 0,
    last_reset_date := 0, trading_configuration := some cfg1 }

/-- A well-formed validation request for `lFresh`'s key. -/
def rq (system_hash account_hash : String) (mode : Nat) : Request :=
  { license_key := "KEY1", system_hash := system_hash,
    account_trade_mode := mode, broker_server := "Broker-1",
    account_hash := account_hash, timestamp := 5 }

/-- The record `lFresh` after its binding validation at time 1 with hash `"S1"`, mode 0:
bound, used once, no login hash recorded. -/
def lBound : License :=
  { lFresh with
    system_hash := some "S1", first_used_at := some 1,
    last_used_at := some 1, usage_count := 1, daily_usage_count := 1,
    broker_server := some "Broker-1" }

/-- A bound license whose expiry is in the past. -/
def lBoundExpired : License :=
  { lBound with expires_at := -10 }

/-- A license that is both deactivated and expired. -/
def lInactiveExpired : License :=
  { lFresh with is_active := false, expires_at := -1 }

/-- An active, unexpired license with no configuration assigned. -/
def lNoCfg : License :=
  { lFresh with trading_configuration := none }

/-- An anomalous record: already used (`first_used_at` set) but unbound
(`system_hash` null). -/
def lUsedUnbound : License :=
  { lFresh with
    first_used_at := some 1, last_used_at := some 1,
    usage_count := 1, daily_usage_count := 1 }

/-- A deactivated but unexpired license. -/
def lInactive : License :=
  { lFresh with is_active := false }

/-- A well-formed request whose license key matches no stored license. -/
def rqBadKey : Request :=
  { rq "S1" "" 0 with license_key := "KEYX" }

end MT5

namespace MT5

theorem reset_fst (l : License) (today : Int) :
    (reset_daily_usage_if_needed l today).1 =
      if l.last_reset_date < today then
        { l with daily_usage_count := 0, last_reset_date := today }
      else l := by
  unfold reset_daily_usage_if_needed
  split <;> rfl

theorem reset_snd (l : License) (today : Int) :
    (reset_daily_usage_if_needed l today).2 =
      if l.last_reset_date < today then 1 else 0 := by
  unfold reset_daily_usage_if_needed
  split <;> rfl

theorem bind_snd (l : License) (sh : String) (mode : Nat) (bs ah : Option String)
    (now today : Int) :
    (bind_account l sh mode bs ah now today).2 =
      (if l.last_reset_date < today then 1 else 0) + 1 := by
  unfold bind_account
  simp only [reset_snd]

theorem bind_trading_configuration (l : License) (sh : String) (mode : Nat)
    (bs ah : Option String) (now today : Int) :
    (bind_account l sh mode bs ah now today).1.trading_configuration =
      l.trading_configuration := by
  unfold bind_account
  simp only [reset_fst]
  split <;> split <;> (try split) <;> (try split) <;> simp

theorem bind_expires_at (l : License) (sh : String) (mode : Nat)
    (bs ah : Option String) (now today : Int) :
    (bind_account l sh mode bs ah now today).1.expires_at = l.expires_at := by
  unfold bind_account
  simp only [reset_fst]
  split <;> split <;> (try split) <;> (try split) <;> simp

theorem bind_is_active (l : License) (sh : String) (mode : Nat)
    (bs ah : Option String) (now today : Int) :
    (bind_account l sh mode bs ah now today).1.is_active = l.is_active := by
  unfold bind_account
  simp only [reset_fst]
  split <;> split <;> (try split) <;> (try split) <;> simp

theorem bind_license_key (l : License) (sh : String) (mode : Nat)
    (bs ah : Option String) (now today : Int) :
    (bind_account l sh mode bs ah now today).1.license_key = l.license_key := by
  unfold bind_account
  simp only [reset_fst]
  split <;> split <;> (try split) <;> (try split) <;> simp

@[simp] theorem reset_license_key (l : License) (today : Int) :
    (reset_daily_usage_if_needed l today).1.license_key = l.license_key := by
  unfold reset_daily_usage_if_needed
  split <;> rfl

@[simp] theorem reset_system_hash (l : License) (today : Int) :
    (reset_daily_usage_if_needed l today).1.system_hash = l.system_hash := by
  unfold reset_daily_usage_if_needed
  split <;> rfl

@[simp] theorem reset_account_hash (l : License) (today : Int) :
    (reset_daily_usage_if_needed l today).1.account_hash = l.account_hash := by
  unfold reset_daily_usage_if_needed
  split <;> rfl

@[simp] theorem reset_account_hash_history (l : License) (today : Int) :
    (reset_daily_usage_if_needed l today).1.account_hash_history =
      l.account_hash_history := by
  unfold reset_daily_usage_if_needed
  split <;> rfl

@[simp] theorem reset_broker_server (l : License) (today : Int) :
    (reset_daily_usage_if_needed l today).1.broker_server = l.broker_server := by
  unfold reset_daily_usage_if_needed
  split <;> rfl

@[simp] theorem reset_account_trade_mode (l : License) (today : Int) :
    (reset_daily_usage_if_needed l today).1.account_trade_mode =
      l.account_trade_mode := by
  unfold reset_daily_usage_if_needed
  split <;> rfl

@[simp] theorem reset_expires_at (l : License) (today : Int) :
    (reset_daily_usage_if_needed l today).1.expires_at = l.expires_at := by
  unfold reset_daily_usage_if_needed
  split <;> rfl

@[simp] theorem reset_is_active (l : License) (today : Int) :
    (reset_daily_usage_if_needed l today).1.is_active = l.is_active := by
  unfold reset_daily_usage_if_needed
  split <;> rfl

@[simp] theorem reset_first_used_at (l : License) (today : Int) :
    (reset_daily_usage_if_needed l today).1.first_used_at = l.first_used_at := by
  unfold reset_daily_usage_if_needed
  split <;> rfl

@[simp] theorem reset_usage_count (l : License) (today : Int) :
    (reset_daily_usage_if_needed l today).1.usage_count = l.usage_count := by
  unfold reset_daily_usage_if_needed
  split <;> rfl

@[simp] theorem reset_trading_configuration (l : License) (today : Int) :
    (reset_daily_usage_if_needed l today).1.trading_configuration =
      l.trading_configuration := by
  unfold reset_daily_usage_if_needed
  split <;> rfl

theorem bind_first_use (l : License) (sh : String) (mode : Nat) (bs ah : Option String)
    (now today : Int) (h : l.first_used_at = none) :
    (bind_account l sh mode bs ah now today).1.system_hash = some sh ∧
    (bind_account l sh mode bs ah now today).1.account_trade_mode = mode ∧
    (bind_account l sh mode bs ah now today).1.first_used_at = some now := by
  unfold bind_account
  simp only [reset_first_used_at, h, Option.isNone_none]
  split <;> split <;> (try split) <;> simp_all

theorem bind_already_used (l : License) (sh : String) (mode : Nat) (bs ah : Option String)
    (now today : Int) (u : Int) (h : l.first_used_at = some u) :
    (bind_account l sh mode bs ah now today).1.system_hash = l.system_hash ∧
    (bind_account l sh mode bs ah now today).1.account_trade_mode = l.account_trade_mode ∧
    (bind_account l sh mode bs ah now today).1.first_used_at = some u ∧
    (bind_account l sh mode bs ah now today).1.broker_server = l.broker_server ∧
    (bind_account l sh mode bs ah now today).1.usage_count = l.usage_count + 1 := by
  unfold bind_account
  simp only [reset_first_used_at, h, Option.isNone_some]
  split <;> (try split) <;> simp_all

theorem bind_daily_new_day (l : License) (sh : String) (mode : Nat) (bs ah : Option String)
    (now today : Int) (hday : l.last_reset_date < today) :
    (bind_account l sh mode bs ah now today).1.daily_usage_count = 1 ∧
    (bind_account l sh mode bs ah now today).1.last_reset_date = today ∧
    (bind_account l sh mode bs ah now today).2 = 2 := by
  unfold bind_account
  simp only [reset_fst, reset_snd, if_pos hday]
  split <;> (try split) <;> (try split) <;> simp_all

theorem post_failure_eq (l : License) (r : Request) (now today : Int)
    (h : (bot_validation_post l r now today).1.isSuccess = false) :
    (bot_validation_post l r now today).2 = (l, 0) := by
  revert h
  unfold bot_validation_post
  split
  · simp
  · split
    · simp
    · split
      · split
        · simp
        · split <;> simp
      · split
        · simp
        · split
          · simp
          · rename_i hvalid _ _
            simp only [bind_trading_configuration]
            cases hcfg : l.trading_configuration with
            | none => simp [is_valid, hcfg] at hvalid
            | some cfg => simp [hcfg, VResult.isSuccess]

theorem post_success_eq (l : License) (r : Request) (now today : Int)
    (h : (bot_validation_post l r now today).1.isSuccess = true) :
    (bot_validation_post l r now today).2 =
      bind_account l r.system_hash r.account_trade_mode (some r.broker_server)
        (if r.account_hash != "" then some r.account_hash else none) now today := by
  revert h
  unfold bot_validation_post
  split
  · simp [VResult.isSuccess]
  · split
    · simp [VResult.isSuccess]
    · split
      · split
        · simp [VResult.isSuccess]
        · split <;> simp [VResult.isSuccess]
      · split
        · simp [VResult.isSuccess]
        · split
          · simp [VResult.isSuccess]
          · rename_i hvalid _ _
            simp only [bind_trading_configuration]
            cases hcfg : l.trading_configuration with
            | none => simp [is_valid, hcfg] at hvalid
            | some cfg => simp [hcfg, VResult.isSuccess]

/-- C2: every validation call that returns a failure result leaves the stored
license record exactly as it was and issues no database write; in particular
the post-bind configuration re-check can never fire, because the bind mutation
preserves `trading_configuration`, which the earlier `is_valid` check proved
present. -/
theorem C2_theorem (l : License) (r : Request) (now today : Int)
    (h : (bot_validation_post l r now today).1.isSuccess = false) :
    (bot_validation_post l r now today).2 = (l, 0) := by
  revert h
  unfold bot_validation_post
  split
  · simp
  · split
    · simp
    · split
      · split
        · simp
        · split <;> simp
      · split
        · simp
        · split
          · simp
          · rename_i hvalid _ _
            simp only [bind_trading_configuration]
            cases hcfg : l.trading_configuration with
            | none => simp [is_valid, hcfg] at hvalid
            | some cfg => simp [hcfg, VResult.isSuccess]

/-- Witness for C2 at a concrete input: an expired license fails and the
stored record is untouched. -/
theorem C2_witness :
    (bot_validation_post { lFresh with expires_at := -1 } (rq "S1" "" 0) 5 0).1.isSuccess
        = false ∧
    (bot_validation_post { lFresh with expires_at := -1 } (rq "S1" "" 0) 5 0).2 =
      ({ lFresh with expires_at := -1 }, 0) :=
  ⟨by decide, C2_theorem _ _ _ _ (by decide)⟩

end MT5

namespace MT5

theorem gate_fails_of_mismatch (l : License) (s sh : String)
    (h1 : l.system_hash = some s) (h2 : s ≠ "") (hne : sh ≠ s) :
    (validate_system_hash l sh).1 = false := by
  have : (s == sh) = false := by
    simp [Ne.symm hne]
  simp [validate_system_hash, truthy, h1, h2, this]

/-- C1 (amended): once `system_hash` is bound to a non-empty value, a
validation call supplying a different `system_hash` never succeeds and never
changes the stored record or writes to the database; it fails specifically
with `SYSTEM_MISMATCH` whenever the request is well-formed, the key matches
and the license passes the activity/expiry/configuration check (otherwise the
earlier check's error is returned instead); and no sequence of such calls
changes any field of the record. -/
theorem C1_theorem (l : License) (s : String)
    (h1 : l.system_hash = some s) (h2 : s ≠ "") :
    (∀ r : Request, ∀ now today : Int, r.system_hash ≠ s →
      (bot_validation_post l r now today).1.isSuccess = false ∧
      (bot_validation_post l r now today).2 = (l, 0) ∧
      (requestValid r = true → (r.license_key == l.license_key) = true →
        is_valid l now = true →
        (bot_validation_post l r now today).1 =
          VResult.failure "SYSTEM_MISMATCH" 403)) ∧
    (∀ cs : List (Request × Int × Int),
      (∀ c ∈ cs, c.1.system_hash ≠ s) → runCalls l cs = l) := by
  have key : ∀ r : Request, ∀ now today : Int, r.system_hash ≠ s →
      (bot_validation_post l r now today).1.isSuccess = false ∧
      (bot_validation_post l r now today).2 = (l, 0) ∧
      (requestValid r = true → (r.license_key == l.license_key) = true →
        is_valid l now = true →
        (bot_validation_post l r now today).1 =
          VResult.failure "SYSTEM_MISMATCH" 403) := by
    intro r now today hne
    have hgate := gate_fails_of_mismatch l s r.system_hash h1 h2 hne
    unfold bot_validation_post
    simp only [hgate]
    split
    · rename_i hrv
      refine ⟨rfl, rfl, ?_⟩
      intro hrv2
      rw [hrv2] at hrv
      simp at hrv
    · split
      · rename_i hkey
        refine ⟨rfl, rfl, ?_⟩
        intro _ hkey2
        rw [hkey2] at hkey
        simp at hkey
      · split
        · rename_i hvalid
          refine ⟨?_, ?_, ?_⟩
          · split
            · rfl
            · split <;> rfl
          · split
            · rfl
            · split <;> rfl
          · intro _ _ hvalid2
            rw [hvalid2] at hvalid
            simp at hvalid
        · exact ⟨rfl, rfl, fun _ _ _ => rfl⟩
  refine ⟨key, ?_⟩
  intro cs hcs
  induction cs with
  | nil => rfl
  | cons c cs ih =>
      have hstep := (key c.1 c.2.1 c.2.2 (hcs c (by simp))).2.1
      have hpost : (bot_validation_post l c.1 c.2.1 c.2.2).2.1 = l := by
        rw [hstep]
      unfold runCalls
      rw [List.foldl_cons, hpost]
      exact ih (fun c hc => hcs c (by simp [hc]))

/-- C1 counterexample: a bound license that is also expired, called with a
different `system_hash`, fails with `LICENSE_EXPIRED`, not `SYSTEM_MISMATCH` —
so not every different-hash call fails with `SystemMismatch` as the claim
states. -/
theorem C1_counterexample :
    lBoundExpired.system_hash = some "S1" ∧
    (rq "S2" "" 0).system_hash ≠ "S1" ∧
    (bot_validation_post lBoundExpired (rq "S2" "" 0) 5 0).1.code = "LICENSE_EXPIRED" ∧
    (bot_validation_post lBoundExpired (rq "S2" "" 0) 5 0).1.code ≠ "SYSTEM_MISMATCH" := by
  decide

/-- Witness for C1 at a concrete input: the bound license `lBound`, called
with hash `"S2"`, fails with `SYSTEM_MISMATCH` leaving the record unchanged,
and a two-call sequence of mismatching requests leaves it unchanged too. -/
theorem C1_witness :
    (bot_validation_post lBound (rq "S2" "" 0) 5 0).1.isSuccess = false ∧
    (bot_validation_post lBound (rq "S2" "" 0) 5 0).1 =
      VResult.failure "SYSTEM_MISMATCH" 403 ∧
    runCalls lBound [(rq "S2" "" 0, 5, 0), (rq "S3" "A1" 1, 6, 1)] = lBound := by
  have h := C1_theorem lBound "S1" rfl (by decide)
  have h1 := h.1 (rq "S2" "" 0) 5 0 (by decide)
  exact ⟨h1.1, h1.2.2 (by decide) (by decide) (by decide),
    h.2 [(rq "S2" "" 0, 5, 0), (rq "S3" "A1" 1, 6, 1)] (by decide)⟩

end MT5

namespace MT5

/-- C7 (amended): for a found license with a well-formed request, the EXPIRY
check has priority over the activity check: an expired license fails
`LICENSE_EXPIRED` even when it is also inactive, and an unexpired inactive
license fails `LICENSE_INACTIVE`; both failures are decided before the
configuration, system-hash and trade-mode checks (the license's other fields
are arbitrary) and leave the record unchanged. -/
theorem C7_theorem (l : License) (r : Request) (now today : Int)
    (hrv : requestValid r = true)
    (hkey : (r.license_key == l.license_key) = true) :
    (is_expired l now = true →
      bot_validation_post l r now today = (.failure "LICENSE_EXPIRED" 401, l, 0)) ∧
    (is_expired l now = false → l.is_active = false →
      bot_validation_post l r now today = (.failure "LICENSE_INACTIVE" 401, l, 0)) := by
  constructor
  · intro hexp
    have hv : is_valid l now = false := by simp [is_valid, hexp]
    unfold bot_validation_post
    simp [hrv, hkey, hv, hexp]
  · intro hexp hact
    have hv : is_valid l now = false := by simp [is_valid, hact]
    unfold bot_validation_post
    simp [hrv, hkey, hv, hexp, hact]

/-- C7 counterexample: a license that is both inactive and expired fails with
`LICENSE_EXPIRED`, not `LICENSE_INACTIVE` — the expiry check runs first, so
the claim's ordering (activity decided before expiry, LicenseInactive even
when also expired) is false on the code. -/
theorem C7_counterexample :
    lInactiveExpired.is_active = false ∧
    is_expired lInactiveExpired 5 = true ∧
    (bot_validation_post lInactiveExpired (rq "S1" "" 0) 5 0).1.code =
      "LICENSE_EXPIRED" ∧
    (bot_validation_post lInactiveExpired (rq "S1" "" 0) 5 0).1.code ≠
      "LICENSE_INACTIVE" := by
  decide

/-- Witness for C7 at concrete inputs: the expired-and-inactive license fails
`LICENSE_EXPIRED`; the inactive unexpired license fails `LICENSE_INACTIVE`. -/
theorem C7_witness :
    bot_validation_post lInactiveExpired (rq "S1" "" 0) 5 0 =
      (.failure "LICENSE_EXPIRED" 401, lInactiveExpired, 0) ∧
    bot_validation_post lInactive (rq "S1" "" 0) 5 0 =
      (.failure "LICENSE_INACTIVE" 401, lInactive, 0) :=
  ⟨(C7_theorem lInactiveExpired (rq "S1" "" 0) 5 0 (by decide) (by decide)).1 (by decide),
   (C7_theorem lInactive (rq "S1" "" 0) 5 0 (by decide) (by decide)).2 (by decide) (by decide)⟩

/-- C8 (amended): validating an existing, active, unexpired license with no
configuration assigned fails `NO_CONFIGURATION` with HTTP status 401 — the
SAME status as the client-error kinds `INVALID_LICENSE`, `LICENSE_INACTIVE`
and `LICENSE_EXPIRED`, not a distinct one; only `SYSTEM_MISMATCH` and
`TRADE_MODE_MISMATCH` use a different status (403).  (The post-bind
configuration re-check would use 500, but it is unreachable.) -/
theorem C8_theorem (l : License) (r : Request) (now today : Int)
    (hrv : requestValid r = true)
    (hkey : (r.license_key == l.license_key) = true)
    (hact : l.is_active = true) (hexp : is_expired l now = false)
    (hcfg : l.trading_configuration = none) :
    bot_validation_post l r now today = (.failure "NO_CONFIGURATION" 401, l, 0) ∧
    (∀ (l2 : License) (r2 : Request) (n2 t2 : Int),
      ((bot_validation_post l2 r2 n2 t2).1.code = "INVALID_LICENSE" ∨
       (bot_validation_post l2 r2 n2 t2).1.code = "LICENSE_INACTIVE" ∨
       (bot_validation_post l2 r2 n2 t2).1.code = "LICENSE_EXPIRED") →
      (bot_validation_post l2 r2 n2 t2).1.httpStatus = 401) ∧
    (∀ (l2 : License) (r2 : Request) (n2 t2 : Int),
      ((bot_validation_post l2 r2 n2 t2).1.code = "SYSTEM_MISMATCH" ∨
       (bot_validation_post l2 r2 n2 t2).1.code = "TRADE_MODE_MISMATCH") →
      (bot_validation_post l2 r2 n2 t2).1.httpStatus = 403) := by
  refine ⟨?_, ?_, ?_⟩
  · have hv : is_valid l now = false := by simp [is_valid, hcfg]
    unfold bot_validation_post
    simp [hrv, hkey, hv, hexp, hact]
  · intro l2 r2 n2 t2 h
    revert h
    unfold bot_validation_post
    split <;> (try split) <;> (try split) <;> (try split) <;> (try split) <;>
      (try split) <;> (try simp only [bind_trading_configuration]) <;> (try split) <;>
      simp [VResult.code, VResult.httpStatus]
  · intro l2 r2 n2 t2 h
    revert h
    unfold bot_validation_post
    split <;> (try split) <;> (try split) <;> (try split) <;> (try split) <;>
      (try split) <;> (try simp only [bind_trading_configuration]) <;> (try split) <;>
      simp [VResult.code, VResult.httpStatus]

/-- C8 counterexample: the no-configuration failure of an active, unexpired
license carries HTTP 401, the very status used for the client-error kinds
(here `INVALID_LICENSE` on an unknown key), so it is NOT distinct from every
client-error kind as the claim states. -/
theorem C8_counterexample :
    (bot_validation_post lNoCfg (rq "S1" "" 0) 5 0).1 =
      VResult.failure "NO_CONFIGURATION" 401 ∧
    (bot_validation_post lFresh rqBadKey 5 0).1 =
      VResult.failure "INVALID_LICENSE" 401 ∧
    (bot_validation_post lNoCfg (rq "S1" "" 0) 5 0).1.httpStatus =
      (bot_validation_post lFresh rqBadKey 5 0).1.httpStatus := by
  decide

/-- Witness for C8 at a concrete input: the configuration-less license fails
`NO_CONFIGURATION` at 401 and a `SYSTEM_MISMATCH` response indeed carries
403. -/
theorem C8_witness :
    bot_validation_post lNoCfg (rq "S1" "" 0) 5 0 =
      (.failure "NO_CONFIGURATION" 401, lNoCfg, 0) ∧
    (bot_validation_post lBound (rq "S2" "" 0) 5 0).1.httpStatus = 403 := by
  have h := C8_theorem lNoCfg (rq "S1" "" 0) 5 0 (by decide) (by decide) (by decide)
    (by decide) (by decide)
  exact ⟨h.1, h.2.2 lBound (rq "S2" "" 0) 5 0 (Or.inl (by decide))⟩

end MT5

namespace MT5

/-- C3 (amended): every success response of the validation endpoint consists
of exactly the keys `success`, `message`, `expires_at` followed by the
flattened configuration-serializer fields; it contains NO usage-info block —
none of `usage_count`, `daily_usage_count`, `first_time_use`,
`account_login_changed` (nor a `license_info` container) appears among its
keys. -/
theorem C3_theorem (l : License) (r : Request) (now today : Int)
    (h : (bot_validation_post l r now today).1.isSuccess = true) :
    responseKeys (bot_validation_post l r now today).1 =
      ["success", "message", "expires_at"] ++ configSerializerKeys ∧
    "usage_count" ∉ responseKeys (bot_validation_post l r now today).1 ∧
    "daily_usage_count" ∉ responseKeys (bot_validation_post l r now today).1 ∧
    "first_time_use" ∉ responseKeys (bot_validation_post l r now today).1 ∧
    "account_login_changed" ∉ responseKeys (bot_validation_post l r now today).1 ∧
    "license_info" ∉ responseKeys (bot_validation_post l r now today).1 := by
  cases hres : (bot_validation_post l r now today).1 with
  | failure c s =>
      rw [hres] at h
      simp [VResult.isSuccess] at h
  | success resp =>
      have hk : responseKeys (VResult.success resp) =
          ["success", "message", "expires_at"] ++ configSerializerKeys := rfl
      refine ⟨hk, ?_, ?_, ?_, ?_, ?_⟩ <;> rw [hk] <;> decide

/-- C3 counterexample: a concrete successful validation whose response body
contains none of the usage-info keys the claim requires. -/
theorem C3_counterexample :
    (bot_validation_post lFresh (rq "S1" "" 0) 5 0).1.isSuccess = true ∧
    "usage_count" ∉ responseKeys (bot_validation_post lFresh (rq "S1" "" 0) 5 0).1 ∧
    "daily_usage_count" ∉ responseKeys (bot_validation_post lFresh (rq "S1" "" 0) 5 0).1 ∧
    "first_time_use" ∉ responseKeys (bot_validation_post lFresh (rq "S1" "" 0) 5 0).1 ∧
    "account_login_changed" ∉
      responseKeys (bot_validation_post lFresh (rq "S1" "" 0) 5 0).1 := by
  decide

/-- Witness for C3 at a concrete input: the success response of the binding
call on `lFresh` has exactly the flattened key list. -/
theorem C3_witness :
    responseKeys (bot_validation_post lFresh (rq "S1" "" 0) 5 0).1 =
      ["success", "message", "expires_at"] ++ configSerializerKeys :=
  (C3_theorem lFresh (rq "S1" "" 0) 5 0 (by decide)).1

end MT5

namespace MT5

/-- C6 (amended): a successful validation on a calendar day strictly later
than `last_reset_date` resets the daily counter and then increments it, so
`daily_usage_count` is exactly 1 afterwards and `last_reset_date` is stamped
to today; however the reset is persisted by its own partial write before the
validation's full-record write — the call issues TWO database writes, not
one. -/
theorem C6_theorem (l : License) (r : Request) (now today : Int)
    (hday : l.last_reset_date < today)
    (hsucc : (bot_validation_post l r now today).1.isSuccess = true) :
    (bot_validation_post l r now today).2.1.daily_usage_count = 1 ∧
    (bot_validation_post l r now today).2.1.last_reset_date = today ∧
    (bot_validation_post l r now today).2.2 = 2 := by
  have hp := post_success_eq l r now today hsucc
  have hb := bind_daily_new_day l r.system_hash r.account_trade_mode
    (some r.broker_server) (if r.account_hash != "" then some r.account_hash else none)
    now today hday
  refine ⟨?_, ?_, ?_⟩
  · rw [hp]; exact hb.1
  · rw [hp]; exact hb.2.1
  · rw [hp]; exact hb.2.2

/-- C6 counterexample: a successful new-day validation issues two writes (the
daily-reset `save(update_fields=...)` inside `reset_daily_usage_if_needed`,
then `bind_account`'s full `save()`), not the single whole-record write the
claim requires. -/
theorem C6_counterexample :
    lFresh.last_reset_date < 3 ∧
    (bot_validation_post lFresh (rq "S1" "" 0) 5 3).1.isSuccess = true ∧
    (bot_validation_post lFresh (rq "S1" "" 0) 5 3).2.1.daily_usage_count = 1 ∧
    (bot_validation_post lFresh (rq "S1" "" 0) 5 3).2.2 = 2 ∧
    (bot_validation_post lFresh (rq "S1" "" 0) 5 3).2.2 ≠ 1 := by
  decide

/-- Witness for C6 at a concrete input: the new-day validation on `lFresh`
ends with daily count 1, reset date stamped, and two writes. -/
theorem C6_witness :
    (bot_validation_post lFresh (rq "S1" "" 0) 5 3).2.1.daily_usage_count = 1 ∧
    (bot_validation_post lFresh (rq "S1" "" 0) 5 3).2.1.last_reset_date = 3 ∧
    (bot_validation_post lFresh (rq "S1" "" 0) 5 3).2.2 = 2 :=
  C6_theorem lFresh (rq "S1" "" 0) 5 3 (by decide) (by decide)

theorem unbound_used_step (x : License) (u : Int) (r : Request) (now today : Int)
    (hsh : x.system_hash = none) (hfu : x.first_used_at = some u) :
    (bot_validation_post x r now today).2.1.system_hash = none ∧
    (bot_validation_post x r now today).2.1.first_used_at = some u := by
  by_cases hs : (bot_validation_post x r now today).1.isSuccess = true
  · have hp := post_success_eq x r now today hs
    have hb := bind_already_used x r.system_hash r.account_trade_mode
      (some r.broker_server) (if r.account_hash != "" then some r.account_hash else none)
      now today u hfu
    constructor
    · rw [hp, hb.1]; exact hsh
    · rw [hp]; exact hb.2.2.1
  · have hs2 : (bot_validation_post x r now today).1.isSuccess = false := by
      revert hs
      cases (bot_validation_post x r now today).1.isSuccess <;> simp
    have hp := post_failure_eq x r now today hs2
    rw [hp]
    exact ⟨hsh, hfu⟩

/-- C10: a license record with `first_used_at` set but `system_hash` null
passes the system-hash gate for every provided hash (the null-hash first-use
branch applies); any single call leaves `system_hash` null and
`first_used_at` untouched, because the bind mutation is gated on
`first_used_at`, not on `system_hash`; a call that also passes the earlier
checks succeeds outright; and after ANY sequence of validation calls the
record is still unbound, so the gate keeps accepting every caller. -/
theorem C10_theorem (l : License) (u : Int)
    (hsh : l.system_hash = none) (hfu : l.first_used_at = some u) :
    (∀ sh : String, (validate_system_hash l sh).1 = true) ∧
    (∀ (r : Request) (now today : Int),
      (bot_validation_post l r now today).2.1.system_hash = none ∧
      (bot_validation_post l r now today).2.1.first_used_at = some u) ∧
    (∀ (r : Request) (now today : Int), requestValid r = true →
      (r.license_key == l.license_key) = true → is_valid l now = true →
      (bot_validation_post l r now today).1.isSuccess = true) ∧
    (∀ cs : List (Request × Int × Int),
      (runCalls l cs).system_hash = none ∧
      (∀ sh : String, (validate_system_hash (runCalls l cs) sh).1 = true)) := by
  have inv : ∀ (cs : List (Request × Int × Int)) (x : License),
      x.system_hash = none → x.first_used_at = some u →
      (runCalls x cs).system_hash = none ∧ (runCalls x cs).first_used_at = some u := by
    intro cs
    induction cs with
    | nil => intro x h1 h2; exact ⟨h1, h2⟩
    | cons c cs ih =>
        intro x h1 h2
        have hstep := unbound_used_step x u c.1 c.2.1 c.2.2 h1 h2
        unfold runCalls
        rw [List.foldl_cons]
        exact ih _ hstep.1 hstep.2
  refine ⟨?_, ?_, ?_, ?_⟩
  · intro sh
    simp [validate_system_hash, truthy, hsh]
  · intro r now today
    exact unbound_used_step l u r now today hsh hfu
  · intro r now today hrv hkey hvalid
    cases hcfg : l.trading_configuration with
    | none => simp [is_valid, hcfg] at hvalid
    | some cfg =>
        unfold bot_validation_post
        simp [hrv, hkey, hvalid, validate_system_hash, truthy, hsh,
          bind_trading_configuration, hcfg, VResult.isSuccess]
  · intro cs
    have h4 := inv cs l hsh hfu
    exact ⟨h4.1, fun sh => by simp [validate_system_hash, truthy, h4.1]⟩

/-- Witness for C10 at a concrete input: the anomalous record `lUsedUnbound`
authorizes hash `"S9"`, and a successful call with it leaves the record
unbound; after a two-call sequence it is still unbound. -/
theorem C10_witness :
    (validate_system_hash lUsedUnbound "S9").1 = true ∧
    (bot_validation_post lUsedUnbound (rq "S9" "" 0) 5 0).1.isSuccess = true ∧
    (bot_validation_post lUsedUnbound (rq "S9" "" 0) 5 0).2.1.system_hash = none ∧
    (runCalls lUsedUnbound [(rq "S9" "" 0, 5, 0), (rq "S8" "" 1, 6, 1)]).system_hash
      = none := by
  have h := C10_theorem lUsedUnbound 1 rfl rfl
  exact ⟨h.1 "S9", h.2.2.1 (rq "S9" "" 0) 5 0 (by decide) (by decide) (by decide),
    (h.2.1 (rq "S9" "" 0) 5 0).1,
    (h.2.2.2 [(rq "S9" "" 0, 5, 0), (rq "S8" "" 1, 6, 1)]).1⟩

end MT5

namespace MT5

theorem req_hash_ne (r : Request) (h : requestValid r = true) : r.system_hash ≠ "" := by
  intro he
  simp [requestValid, he] at h

theorem first_call_success (l : License) (r : Request) (now today : Int)
    (hrv : requestValid r = true) (hkey : (r.license_key == l.license_key) = true)
    (hunbound : l.system_hash = none) (hvalid : is_valid l now = true) :
    (bot_validation_post l r now today).1.isSuccess = true := by
  cases hcfg : l.trading_configuration with
  | none => simp [is_valid, hcfg] at hvalid
  | some cfg =>
      unfold bot_validation_post
      simp [hrv, hkey, hvalid, validate_system_hash, truthy, hunbound,
        bind_trading_configuration, hcfg, VResult.isSuccess]

theorem mismatch_call_eq (x : License) (r : Request) (now today : Int) (s : String)
    (hrv : requestValid r = true) (hkey : (r.license_key == x.license_key) = true)
    (hvalid : is_valid x now = true) (hsx : x.system_hash = some s) (hsne : s ≠ "")
    (hne : r.system_hash ≠ s) :
    bot_validation_post x r now today = (VResult.failure "SYSTEM_MISMATCH" 403, x, 0) := by
  have hgate := gate_fails_of_mismatch x s r.system_hash hsx hsne hne
  unfold bot_validation_post
  simp [hrv, hkey, hvalid, hgate]

/-- C4 (amended): for two first-use validation calls on the same unbound
license with two different hashes, the exactly-one-success outcome holds only
when the calls are SERIALIZED (the second reads the record after the first's
write): then the first succeeds and the second fails `SYSTEM_MISMATCH`
without mutation.  The view takes no per-license lock and opens no
transaction, so when both calls read the unbound record before either saves,
BOTH succeed and the final stored record carries the last writer's hash. -/
theorem C4_theorem (l : License) (r1 r2 : Request) (now today : Int)
    (hrv1 : requestValid r1 = true) (hkey1 : (r1.license_key == l.license_key) = true)
    (hrv2 : requestValid r2 = true) (hkey2 : (r2.license_key == l.license_key) = true)
    (hunbound : l.system_hash = none) (hunused : l.first_used_at = none)
    (hvalid : is_valid l now = true)
    (hne : r2.system_hash ≠ r1.system_hash) :
    ((bot_validation_post l r1 now today).1.isSuccess = true ∧
     (bot_validation_post (bot_validation_post l r1 now today).2.1 r2 now today).1 =
       VResult.failure "SYSTEM_MISMATCH" 403 ∧
     (bot_validation_post (bot_validation_post l r1 now today).2.1 r2 now today).2.1 =
       (bot_validation_post l r1 now today).2.1) ∧
    ((interleavedBothRead l r1 r2 now today).1.isSuccess = true ∧
     (interleavedBothRead l r1 r2 now today).2.1.isSuccess = true ∧
     (interleavedBothRead l r1 r2 now today).2.2.system_hash = some r2.system_hash) := by
  have hs1 : (bot_validation_post l r1 now today).1.isSuccess = true :=
    first_call_success l r1 now today hrv1 hkey1 hunbound hvalid
  have hp1 := post_success_eq l r1 now today hs1
  have hL1sys : (bot_validation_post l r1 now today).2.1.system_hash =
      some r1.system_hash := by
    rw [hp1]
    exact (bind_first_use l _ _ _ _ now today hunused).1
  have hL1key : (bot_validation_post l r1 now today).2.1.license_key =
      l.license_key := by
    rw [hp1]; exact bind_license_key l _ _ _ _ now today
  have hL1act : (bot_validation_post l r1 now today).2.1.is_active = l.is_active := by
    rw [hp1]; exact bind_is_active l _ _ _ _ now today
  have hL1exp : (bot_validation_post l r1 now today).2.1.expires_at = l.expires_at := by
    rw [hp1]; exact bind_expires_at l _ _ _ _ now today
  have hL1cfg : (bot_validation_post l r1 now today).2.1.trading_configuration =
      l.trading_configuration := by
    rw [hp1]; exact bind_trading_configuration l _ _ _ _ now today
  have hvalid1 : is_valid (bot_validation_post l r1 now today).2.1 now = true := by
    simp only [is_valid, is_expired, hL1act, hL1exp, hL1cfg]
    simpa [is_valid, is_expired] using hvalid
  have hkey2x : (r2.license_key ==
      (bot_validation_post l r1 now today).2.1.license_key) = true := by
    rw [hL1key]; exact hkey2
  have h2 := mismatch_call_eq (bot_validation_post l r1 now today).2.1 r2 now today
    r1.system_hash hrv2 hkey2x hvalid1 hL1sys (req_hash_ne r1 hrv1) hne
  have hs2 : (bot_validation_post l r2 now today).1.isSuccess = true :=
    first_call_success l r2 now today hrv2 hkey2 hunbound hvalid
  have hp2 := post_success_eq l r2 now today hs2
  refine ⟨⟨hs1, ?_, ?_⟩, hs1, hs2, ?_⟩
  · rw [h2]
  · rw [h2]
  · show (bot_validation_post l r2 now today).2.1.system_hash = some r2.system_hash
    rw [hp2]
    exact (bind_first_use l _ _ _ _ now today hunused).1

/-- C4 counterexample: when both calls read the unbound license before either
writes (the code has no lock or transaction), both calls succeed with
different hashes and the record ends up bound to the last writer — the
exactly-one-success guarantee is violated. -/
theorem C4_counterexample :
    lFresh.system_hash = none ∧
    (rq "S1" "" 0).system_hash ≠ (rq "S2" "" 0).system_hash ∧
    (interleavedBothRead lFresh (rq "S1" "" 0) (rq "S2" "" 0) 5 0).1.isSuccess = true ∧
    (interleavedBothRead lFresh (rq "S1" "" 0) (rq "S2" "" 0) 5 0).2.1.isSuccess = true ∧
    (interleavedBothRead lFresh (rq "S1" "" 0) (rq "S2" "" 0) 5 0).2.2.system_hash =
      some "S2" := by
  decide

/-- Witness for C4 at a concrete input: serialized, the first call binds and
the second fails `SYSTEM_MISMATCH`. -/
theorem C4_witness :
    (bot_validation_post lFresh (rq "S1" "" 0) 5 0).1.isSuccess = true ∧
    (bot_validation_post (bot_validation_post lFresh (rq "S1" "" 0) 5 0).2.1
      (rq "S2" "" 0) 5 0).1 = VResult.failure "SYSTEM_MISMATCH" 403 := by
  have h := C4_theorem lFresh (rq "S1" "" 0) (rq "S2" "" 0) 5 0 (by decide) (by decide)
    (by decide) (by decide) rfl rfl (by decide) (by decide)
  exact ⟨h.1.1, h.1.2.1⟩

end MT5

namespace MT5

theorem bound_step (x : License) (r : Request) (now today : Int) (H : String) (u : Int)
    (hH : x.system_hash = some H) (hu : x.first_used_at = some u) :
    (bot_validation_post x r now today).2.1.system_hash = some H ∧
    (bot_validation_post x r now today).2.1.license_key = x.license_key ∧
    (bot_validation_post x r now today).2.1.account_trade_mode = x.account_trade_mode ∧
    (bot_validation_post x r now today).2.1.first_used_at = some u ∧
    (bot_validation_post x r now today).2.1.is_active = x.is_active ∧
    (bot_validation_post x r now today).2.1.expires_at = x.expires_at ∧
    (bot_validation_post x r now today).2.1.trading_configuration =
      x.trading_configuration := by
  by_cases hs : (bot_validation_post x r now today).1.isSuccess = true
  · have hp := post_success_eq x r now today hs
    have hb := bind_already_used x r.system_hash r.account_trade_mode
      (some r.broker_server) (if r.account_hash != "" then some r.account_hash else none)
      now today u hu
    refine ⟨?_, ?_, ?_, ?_, ?_, ?_, ?_⟩ <;> rw [hp]
    · rw [hb.1]; exact hH
    · exact bind_license_key x _ _ _ _ now today
    · exact hb.2.1
    · exact hb.2.2.1
    · exact bind_is_active x _ _ _ _ now today
    · exact bind_expires_at x _ _ _ _ now today
    · exact bind_trading_configuration x _ _ _ _ now today
  · have hs2 : (bot_validation_post x r now today).1.isSuccess = false := by
      revert hs
      cases (bot_validation_post x r now today).1.isSuccess <;> simp
    have hp := post_failure_eq x r now today hs2
    rw [hp]
    exact ⟨hH, rfl, rfl, hu, rfl, rfl, rfl⟩

theorem bound_run (H : String) (u : Int) :
    ∀ (cs : List (Request × Int × Int)) (x : License),
      x.system_hash = some H → x.first_used_at = some u →
      (runCalls x cs).system_hash = some H ∧
      (runCalls x cs).license_key = x.license_key ∧
      (runCalls x cs).account_trade_mode = x.account_trade_mode ∧
      (runCalls x cs).first_used_at = some u ∧
      (runCalls x cs).is_active = x.is_active ∧
      (runCalls x cs).expires_at = x.expires_at ∧
      (runCalls x cs).trading_configuration = x.trading_configuration := by
  intro cs
  induction cs with
  | nil => intro x h1 h2; exact ⟨h1, rfl, rfl, h2, rfl, rfl, rfl⟩
  | cons c cs ih =>
      intro x h1 h2
      have hstep := bound_step x c.1 c.2.1 c.2.2 H u h1 h2
      have hrec := ih (bot_validation_post x c.1 c.2.1 c.2.2).2.1 hstep.1
        hstep.2.2.2.1
      unfold runCalls
      rw [List.foldl_cons]
      exact ⟨hrec.1, hrec.2.1.trans hstep.2.1, hrec.2.2.1.trans hstep.2.2.1,
        hrec.2.2.2.1, hrec.2.2.2.2.1.trans hstep.2.2.2.2.1,
        hrec.2.2.2.2.2.1.trans hstep.2.2.2.2.2.1,
        hrec.2.2.2.2.2.2.trans hstep.2.2.2.2.2.2⟩

theorem bound_call_success (x : License) (r : Request) (now today : Int) (H : String)
    (hH : x.system_hash = some H) (hHne : H ≠ "")
    (hrv : requestValid r = true) (hkey : (r.license_key == x.license_key) = true)
    (hhash : r.system_hash = H) (hmode : r.account_trade_mode = x.account_trade_mode)
    (hvalid : is_valid x now = true) :
    (bot_validation_post x r now today).1.isSuccess = true := by
  cases hcfg : x.trading_configuration with
  | none => simp [is_valid, hcfg] at hvalid
  | some cfg =>
      have hgate : (validate_system_hash x r.system_hash).1 = true := by
        simp [validate_system_hash, truthy, hH, hHne, hhash]
      have hmode2 : (truthy x.system_hash &&
          x.account_trade_mode != r.account_trade_mode) = false := by
        simp [hmode]
      unfold bot_validation_post
      simp [hrv, hkey, hvalid, hgate, hmode2, bind_trading_configuration, hcfg,
        VResult.isSuccess]

/-- C9: after a validation call binds an unbound license with hash `H` and
trade mode `M`, any later validation call supplying the same `H` and `M`
succeeds at every time at which the license is not expired, with arbitrary
validation calls in between (which can never unbind, deactivate, reconfigure
or change the mode of the record). -/
theorem C9_theorem (l : License) (r0 : Request) (now0 today0 : Int)
    (hrv0 : requestValid r0 = true)
    (hkey0 : (r0.license_key == l.license_key) = true)
    (hunbound : l.system_hash = none) (hunused : l.first_used_at = none)
    (hvalid0 : is_valid l now0 = true) :
    (bot_validation_post l r0 now0 today0).1.isSuccess = true ∧
    ∀ (cs : List (Request × Int × Int)) (r : Request) (now today : Int),
      requestValid r = true → r.license_key = r0.license_key →
      r.system_hash = r0.system_hash →
      r.account_trade_mode = r0.account_trade_mode →
      is_expired l now = false →
      (bot_validation_post
        (runCalls (bot_validation_post l r0 now0 today0).2.1 cs) r now today).1.isSuccess
        = true := by
  have hs0 : (bot_validation_post l r0 now0 today0).1.isSuccess = true :=
    first_call_success l r0 now0 today0 hrv0 hkey0 hunbound hvalid0
  have hp0 := post_success_eq l r0 now0 today0 hs0
  have hb0 := bind_first_use l r0.system_hash r0.account_trade_mode
    (some r0.broker_server)
    (if r0.account_hash != "" then some r0.account_hash else none)
    now0 today0 hunused
  have hsys1 : (bot_validation_post l r0 now0 today0).2.1.system_hash =
      some r0.system_hash := by rw [hp0]; exact hb0.1
  have hmode1 : (bot_validation_post l r0 now0 today0).2.1.account_trade_mode =
      r0.account_trade_mode := by rw [hp0]; exact hb0.2.1
  have hfu1 : (bot_validation_post l r0 now0 today0).2.1.first_used_at =
      some now0 := by rw [hp0]; exact hb0.2.2
  have hkeyA : (bot_validation_post l r0 now0 today0).2.1.license_key =
      l.license_key := by rw [hp0]; exact bind_license_key l _ _ _ _ now0 today0
  have hact1 : (bot_validation_post l r0 now0 today0).2.1.is_active = l.is_active := by
    rw [hp0]; exact bind_is_active l _ _ _ _ now0 today0
  have hexp1 : (bot_validation_post l r0 now0 today0).2.1.expires_at =
      l.expires_at := by rw [hp0]; exact bind_expires_at l _ _ _ _ now0 today0
  have hcfg1 : (bot_validation_post l r0 now0 today0).2.1.trading_configuration =
      l.trading_configuration := by
    rw [hp0]; exact bind_trading_configuration l _ _ _ _ now0 today0
  refine ⟨hs0, ?_⟩
  intro cs r now today hrv hkey hhash hmode hexp
  have hrun := bound_run r0.system_hash now0 cs
    (bot_validation_post l r0 now0 today0).2.1 hsys1 hfu1
  have hv0 := hvalid0
  simp [is_valid, is_expired] at hv0
  have hexp2 : ¬ now > l.expires_at := by
    simpa [is_expired] using hexp
  refine bound_call_success _ r now today r0.system_hash hrun.1
    (req_hash_ne r0 hrv0) hrv ?_ hhash ?_ ?_
  · rw [hrun.2.1, hkeyA, hkey]
    exact hkey0
  · rw [hrun.2.2.1, hmode1]
    exact hmode
  · simp only [is_valid, is_expired, hrun.2.2.2.2.1.trans hact1,
      hrun.2.2.2.2.2.1.trans hexp1, hrun.2.2.2.2.2.2.trans hcfg1]
    simp [hv0, hexp2]

/-- Witness for C9 at a concrete input: bind `lFresh` with `"S1"`/mode 0 at
time 5, interpose a mismatching call, then validate again with `"S1"`/mode 0
at time 99 (before expiry 100): success. -/
theorem C9_witness :
    (bot_validation_post lFresh (rq "S1" "" 0) 5 0).1.isSuccess = true ∧
    (bot_validation_post
      (runCalls (bot_validation_post lFresh (rq "S1" "" 0) 5 0).2.1
        [(rq "S2" "A7" 1, 6, 1)])
      (rq "S1" "" 0) 99 2).1.isSuccess = true := by
  have h := C9_theorem lFresh (rq "S1" "" 0) 5 0 (by decide) (by decide) rfl rfl
    (by decide)
  exact ⟨h.1, h.2 [(rq "S2" "A7" 1, 6, 1)] (rq "S1" "" 0) 99 2 (by decide) rfl rfl rfl
    (by decide)⟩

end MT5

namespace MT5

theorem bind_hist_append (l : License) (sh : String) (mode : Nat)
    (bs ah : Option String) (now today : Int) :
    ∃ t, (bind_account l sh mode bs ah now today).1.account_hash_history =
      l.account_hash_history ++ t := by
  unfold bind_account
  simp only [reset_account_hash_history, reset_first_used_at, reset_account_hash]
  split
  · split
    · split
      · exact ⟨[⟨ah.getD "", now, HistAction.initial_set⟩], by simp⟩
      · exact ⟨[⟨ah.getD "", now, HistAction.initial_set⟩], by simp⟩
    · split
      · exact ⟨[], by simp⟩
      · exact ⟨[], by simp⟩
  · split
    · split
      · exact ⟨[⟨l.account_hash.getD "", now, HistAction.replaced⟩,
          ⟨ah.getD "", now, HistAction.updated⟩], by simp⟩
      · exact ⟨[⟨ah.getD "", now, HistAction.updated⟩], by simp⟩
    · exact ⟨[], by simp⟩

theorem bind_hist_first_set (l : License) (sh : String) (mode : Nat) (bs : Option String)
    (a : String) (now today : Int) (h : l.first_used_at = none) (ha : a ≠ "") :
    (bind_account l sh mode bs (some a) now today).1.account_hash_history =
      l.account_hash_history ++ [⟨a, now, HistAction.initial_set⟩] ∧
    (bind_account l sh mode bs (some a) now today).1.account_hash = some a := by
  have ht : truthy (some a) = true := by simp [truthy, ha]
  unfold bind_account
  simp only [reset_first_used_at, reset_account_hash_history, reset_account_hash, h,
    Option.isNone_none, ht]
  split <;> (try split) <;> (try split) <;> simp_all

theorem bind_hist_first_skip (l : License) (sh : String) (mode : Nat)
    (bs ah : Option String) (now today : Int) (h : l.first_used_at = none)
    (ha : truthy ah = false) :
    (bind_account l sh mode bs ah now today).1.account_hash_history =
      l.account_hash_history ∧
    (bind_account l sh mode bs ah now today).1.account_hash = l.account_hash := by
  unfold bind_account
  simp only [reset_first_used_at, reset_account_hash_history, reset_account_hash, h,
    Option.isNone_none, ha]
  split <;> (try split) <;> (try split) <;> simp_all

theorem bind_hist_replaced (l : License) (sh : String) (mode : Nat) (bs : Option String)
    (a old : String) (now today : Int) (u : Int)
    (h : l.first_used_at = some u) (ha : a ≠ "") (hold : l.account_hash = some old)
    (holdne : old ≠ "") (hne : a ≠ old) :
    (bind_account l sh mode bs (some a) now today).1.account_hash_history =
      l.account_hash_history ++
        [⟨old, now, HistAction.replaced⟩, ⟨a, now, HistAction.updated⟩] ∧
    (bind_account l sh mode bs (some a) now today).1.account_hash = some a := by
  unfold bind_account
  simp only [reset_first_used_at, reset_account_hash_history, reset_account_hash, h,
    Option.isNone_some]
  simp [truthy, hold, holdne, ha, hne]

theorem bind_hist_updated_fresh (l : License) (sh : String) (mode : Nat)
    (bs : Option String) (a : String) (now today : Int) (u : Int)
    (h : l.first_used_at = some u) (ha : a ≠ "") (hnone : l.account_hash = none) :
    (bind_account l sh mode bs (some a) now today).1.account_hash_history =
      l.account_hash_history ++ [⟨a, now, HistAction.updated⟩] ∧
    (bind_account l sh mode bs (some a) now today).1.account_hash = some a := by
  have hc : (truthy (some a) && (some a != l.account_hash)) = true := by
    simp [truthy, ha, hnone]
  have ht : truthy l.account_hash = false := by simp [truthy, hnone]
  unfold bind_account
  simp only [reset_first_used_at, reset_account_hash_history, reset_account_hash, h,
    Option.isNone_some, hc, ht]
  simp

theorem bind_hist_noop (l : License) (sh : String) (mode : Nat)
    (bs ah : Option String) (now today : Int) (u : Int)
    (h : l.first_used_at = some u)
    (hc : (truthy ah && (ah != l.account_hash)) = false) :
    (bind_account l sh mode bs ah now today).1.account_hash_history =
      l.account_hash_history ∧
    (bind_account l sh mode bs ah now today).1.account_hash = l.account_hash := by
  unfold bind_account
  simp only [reset_first_used_at, reset_account_hash_history, reset_account_hash, h,
    Option.isNone_some, hc]
  simp

end MT5

namespace MT5

/-- C5 (amended): `account_hash_history` is append-only — every call leaves
the previous entries as a prefix, failures append nothing — and on success it
grows exactly as `bind_account` dictates: when the license binds
(`first_used_at` null) a supplied non-empty `account_hash` appends one
`initial_set` entry and an absent one appends nothing; on an already-used
license a supplied non-empty value differing from the stored one appends the
old value as `replaced` (ONLY when the old value was non-null and non-empty —
a first-time set on a later call appends just the new value tagged `updated`,
not `initial_set`) followed by the new value as `updated`; and a repeat of
the stored value or an absent value appends nothing. -/
theorem C5_theorem (l : License) (r : Request) (now today : Int) :
    (∃ t, (bot_validation_post l r now today).2.1.account_hash_history =
        l.account_hash_history ++ t) ∧
    ((bot_validation_post l r now today).1.isSuccess = false →
      (bot_validation_post l r now today).2.1.account_hash_history =
        l.account_hash_history) ∧
    ((bot_validation_post l r now today).1.isSuccess = true →
      (l.first_used_at = none →
        (r.account_hash ≠ "" →
          (bot_validation_post l r now today).2.1.account_hash_history =
            l.account_hash_history ++
              [⟨r.account_hash, now, HistAction.initial_set⟩]) ∧
        (r.account_hash = "" →
          (bot_validation_post l r now today).2.1.account_hash_history =
            l.account_hash_history)) ∧
      (∀ u : Int, l.first_used_at = some u →
        (∀ old : String, l.account_hash = some old → old ≠ "" →
          r.account_hash ≠ "" → r.account_hash ≠ old →
          (bot_validation_post l r now today).2.1.account_hash_history =
            l.account_hash_history ++
              [⟨old, now, HistAction.replaced⟩,
               ⟨r.account_hash, now, HistAction.updated⟩]) ∧
        (l.account_hash = none → r.account_hash ≠ "" →
          (bot_validation_post l r now today).2.1.account_hash_history =
            l.account_hash_history ++ [⟨r.account_hash, now, HistAction.updated⟩]) ∧
        ((r.account_hash = "" ∨ l.account_hash = some r.account_hash) →
          (bot_validation_post l r now today).2.1.account_hash_history =
            l.account_hash_history))) := by
  by_cases hs : (bot_validation_post l r now today).1.isSuccess = true
  · have hp := post_success_eq l r now today hs
    refine ⟨?_, ?_, ?_⟩
    · rw [hp]
      exact bind_hist_append l r.system_hash r.account_trade_mode
        (some r.broker_server) _ now today
    · intro hf
      exact absurd hf (by simp [hs])
    · intro _
      constructor
      · intro hfu
        constructor
        · intro hane
          have harg : (if r.account_hash != "" then some r.account_hash else none) =
              some r.account_hash := by simp [hane]
          rw [hp, harg]
          exact (bind_hist_first_set l r.system_hash r.account_trade_mode
            (some r.broker_server) r.account_hash now today hfu hane).1
        · intro haeq
          have harg : (if r.account_hash != "" then some r.account_hash else none) =
              none := by simp [haeq]
          rw [hp, harg]
          exact (bind_hist_first_skip l r.system_hash r.account_trade_mode
            (some r.broker_server) none now today hfu (by simp [truthy])).1
      · intro u hfu
        refine ⟨?_, ?_, ?_⟩
        · intro old hold holdne hane hneq
          have harg : (if r.account_hash != "" then some r.account_hash else none) =
              some r.account_hash := by simp [hane]
          rw [hp, harg]
          exact (bind_hist_replaced l r.system_hash r.account_trade_mode
            (some r.broker_server) r.account_hash old now today u hfu hane hold
            holdne hneq).1
        · intro hnone hane
          have harg : (if r.account_hash != "" then some r.account_hash else none) =
              some r.account_hash := by simp [hane]
          rw [hp, harg]
          exact (bind_hist_updated_fresh l r.system_hash r.account_trade_mode
            (some r.broker_server) r.account_hash now today u hfu hane hnone).1
        · intro hd
          rcases hd with he | hcur
          · have harg : (if r.account_hash != "" then some r.account_hash else none) =
                none := by simp [he]
            rw [hp, harg]
            exact (bind_hist_noop l r.system_hash r.account_trade_mode
              (some r.broker_server) none now today u hfu (by simp [truthy])).1
          · by_cases hae : r.account_hash = ""
            · have harg : (if r.account_hash != "" then some r.account_hash else none) =
                  none := by simp [hae]
              rw [hp, harg]
              exact (bind_hist_noop l r.system_hash r.account_trade_mode
                (some r.broker_server) none now today u hfu (by simp [truthy])).1
            · have harg : (if r.account_hash != "" then some r.account_hash else none) =
                  some r.account_hash := by simp [hae]
              rw [hp, harg]
              refine (bind_hist_noop l r.system_hash r.account_trade_mode
                (some r.broker_server) (some r.account_hash) now today u hfu ?_).1
              simp [truthy, hcur]
  · have hs2 : (bot_validation_post l r now today).1.isSuccess = false := by
      revert hs
      cases (bot_validation_post l r now today).1.isSuccess <;> simp
    have hp := post_failure_eq l r now today hs2
    refine ⟨⟨[], ?_⟩, fun _ => ?_, fun hsucc => absurd hsucc (by simp [hs2])⟩
    · rw [hp]; simp
    · rw [hp]

/-- C5 counterexample: on a bound, already-used license whose `account_hash`
is still null, a successful call supplying a login hash for the FIRST time
appends an `updated` entry, not the `initial_set` entry the claim requires
for a first-time set. -/
theorem C5_counterexample :
    lBound.first_used_at = some 1 ∧
    lBound.account_hash = none ∧
    (bot_validation_post lBound (rq "S1" "A1" 0) 6 0).1.isSuccess = true ∧
    (bot_validation_post lBound (rq "S1" "A1" 0) 6 0).2.1.account_hash_history =
      [⟨"A1", 6, HistAction.updated⟩] ∧
    HistAction.updated ≠ HistAction.initial_set := by
  decide

/-- Witness for C5 at a concrete input: the binding call on `lFresh` with
login hash `"A1"` appends exactly one `initial_set` entry. -/
theorem C5_witness :
    (bot_validation_post lFresh (rq "S1" "A1" 0) 5 0).1.isSuccess = true ∧
    (bot_validation_post lFresh (rq "S1" "A1" 0) 5 0).2.1.account_hash_history =
      lFresh.account_hash_history ++ [⟨"A1", 5, HistAction.initial_set⟩] := by
  have h := (C5_theorem lFresh (rq "S1" "A1" 0) 5 0).2.2 (by decide)
  exact ⟨by decide, (h.1 rfl).1 (by decide)⟩

end MT5
